import Mathlib

/-!
Shallow embedding of the Zero-Poverty record-management front-end core:
the data normalizer, the record store (group reconciliation and the
visible-record filter) and the edit reconciler (optimistic save), as
implemented in src/App.tsx and src/components/StudentTable.tsx.

JavaScript values reachable from JSON payloads are modelled by the type
JsVal; raw rows are association lists from string keys to such values.
Machine behaviour of the relevant JS primitives (truthiness, String(),
Number(), toLowerCase(), String.prototype.includes) is transcribed into
executable Lean functions.
-/

namespace ZeroPoverty

/-- Values a JSON payload can put in a row field (JSON has no undefined;
an absent key is modelled by Option.none at the lookup sites). -/
inductive JsVal where
  | vstr (s : String)
  | vnum (n : Int)
  | vbool (b : Bool)
  | vnull
deriving Repr, DecidableEq

/-- One raw row from the gateway: an object, i.e. an association list of
string keys to values, in insertion order (keys unique in practice). -/
abbrev RawRow := List (String × JsVal)

/-- Lowercase a string character by character, as JS toLowerCase does on
the ASCII data this app handles. -/
def toLowerStr (s : String) : String :=
  String.mk (s.toList.map Char.toLower)

/-- Check that the first list is an initial segment of the second. -/
def leadMatch : List Char → List Char → Bool
  | [], _ => true
  | _ :: _, [] => false
  | a :: as, b :: bs => a == b && leadMatch as bs

/-- Search for the needle at every position of the haystack. -/
def subSearch (needle : List Char) : List Char → Bool
  | [] => leadMatch needle []
  | c :: cs => leadMatch needle (c :: cs) || subSearch needle cs

/-- JS String.prototype.includes: does s contain sub as a substring. -/
def jsIncludes (s sub : String) : Bool :=
  subSearch sub.toList s.toList

/-- JS truthiness of a value ("" and 0 and false and null are falsy). -/
def jsTruthy : JsVal → Bool
  | .vstr s => s ≠ ""
  | .vnum n => n ≠ 0
  | .vbool b => b
  | .vnull => false

/-- JS String() conversion of a value. -/
def jsString : JsVal → String
  | .vstr s => s
  | .vnum n => toString n
  | .vbool b => if b then "true" else "false"
  | .vnull => "null"

/-- Digit-string to number; none when some character is not a digit. -/
def digitsToNat (cs : List Char) : Option Nat :=
  if cs ≠ [] ∧ cs.all Char.isDigit then
    some (cs.foldl (fun a c => a * 10 + (c.toNat - 48)) 0)
  else none

/-- Whitespace characters JS Number() ignores around a numeric string. -/
def isWS (c : Char) : Bool :=
  c == ' ' || c == '\t' || c == '\n' || c == '\r'

/-- Drop leading and trailing whitespace from a char list. -/
def trimChars (cs : List Char) : List Char :=
  ((cs.dropWhile isWS).reverse.dropWhile isWS).reverse

/-- JS Number() on a string: trim; empty means 0; an optionally signed
run of digits means its value; none models NaN. -/
def parseNumStr (s : String) : Option Int :=
  match trimChars s.toList with
  | [] => some 0
  | '-' :: cs => (digitsToNat cs).map (fun n => -(n : Int))
  | '+' :: cs => (digitsToNat cs).map (fun n => (n : Int))
  | cs => (digitsToNat cs).map (fun n => (n : Int))

/-- JS Number() conversion; none models NaN. -/
def jsToNum : JsVal → Option Int
  | .vstr s => parseNumStr s
  | .vnum n => some n
  | .vbool b => some (if b then 1 else 0)
  | .vnull => some 0

/-- Property access item[key]: first pair with exactly this key. -/
def lookupExact (row : RawRow) (key : String) : Option JsVal :=
  (row.find? (fun p => p.1 = key)).map (fun p => p.2)

/-- The getVal helper of normalizeData in src/App.tsx: exact key first,
then the first key equal up to case (the JS code tests the found key for
truthiness, so an empty found key yields undefined). -/
def getVal (row : RawRow) (key : String) : Option JsVal :=
  match lookupExact row key with
  | some v => some v
  | none =>
    match row.find? (fun p => toLowerStr p.1 = toLowerStr key) with
    | some p => if p.1 = "" then none else some p.2
    | none => none

/-- One string field of normalizeData: String(getVal(key) or default). -/
def strField (row : RawRow) (key dflt : String) : String :=
  match getVal row key with
  | some v => if jsTruthy v then jsString v else dflt
  | none => dflt

/-- The Age field of normalizeData: Number(getVal(key)) or 0
(NaN is falsy, so a non-coercible value degrades to 0; 0 stays 0). -/
def numField (row : RawRow) (key : String) : Int :=
  match getVal row key with
  | some v =>
    match jsToNum v with
    | some n => n
    | none => 0
  | none => 0

/-- The normalized record type, src/types.ts Student (the two optional
fields are always set by normalizeData, hence plain strings here). -/
structure Student where
  ID : String
  FamilyId : String
  GramPanchayat : String
  StudentName : String
  FatherName : String
  Aadhaar : String
  DOB : String
  Age : Int
  Mobile : String
  Gender : String
  AdmissionDetailed : String
  Remark : String
deriving Repr, DecidableEq

/-- normalizeData applied to one raw row (the body of the map in
src/App.tsx normalizeData). -/
def normalizeOne (item : RawRow) : Student :=
  { ID := strField item "ID" ""
  , FamilyId := strField item "FamilyId" ""
  , GramPanchayat := strField item "GramPanchayat" ""
  , StudentName := strField item "StudentName" "Unknown"
  , FatherName := strField item "FatherName" ""
  , Aadhaar := strField item "Aadhaar" ""
  , DOB := strField item "DOB" ""
  , Age := numField item "Age"
  , Mobile := strField item "Mobile" ""
  , Gender := strField item "Gender" "U"
  , AdmissionDetailed := strField item "AdmissionDetailed" ""
  , Remark := strField item "Remark" "" }

/-- normalizeData of src/App.tsx: one well-typed record per raw row. -/
def normalizeData (rawData : List RawRow) : List Student :=
  rawData.map normalizeOne

/-- The embedding of a normalized record back as a raw row, with exactly
the keys and value types normalizeData emits (Age stays numeric). -/
def studentToRow (s : Student) : RawRow :=
  [ ("ID", JsVal.vstr s.ID)
  , ("FamilyId", JsVal.vstr s.FamilyId)
  , ("GramPanchayat", JsVal.vstr s.GramPanchayat)
  , ("StudentName", JsVal.vstr s.StudentName)
  , ("FatherName", JsVal.vstr s.FatherName)
  , ("Aadhaar", JsVal.vstr s.Aadhaar)
  , ("DOB", JsVal.vstr s.DOB)
  , ("Age", JsVal.vnum s.Age)
  , ("Mobile", JsVal.vstr s.Mobile)
  , ("Gender", JsVal.vstr s.Gender)
  , ("AdmissionDetailed", JsVal.vstr s.AdmissionDetailed)
  , ("Remark", JsVal.vstr s.Remark) ]

/-!
Record store: the App state is the students collection, the selected
Gram Panchayat and the error banner, the pieces of React state the
claims are about.
-/

/-- The App-level state relevant to the core: the record collection,
the selected group key, and the error banner. -/
structure AppState where
  students : List Student
  selectedGP : String
  error : Option String
deriving Repr, DecidableEq

/-- Lexicographic comparison of char lists by code unit, the order the
JS default array sort uses on strings. -/
def charListLE : List Char → List Char → Bool
  | [], _ => true
  | _ :: _, [] => false
  | a :: as, b :: bs =>
    if a.toNat < b.toNat then true
    else if b.toNat < a.toNat then false
    else charListLE as bs

/-- Lexicographic string comparison by code unit. -/
def strLE (a b : String) : Bool := charListLE a.toList b.toList

/-- Insert a string into a sorted list, keeping it sorted. -/
def insertSorted (x : String) : List String → List String
  | [] => [x]
  | y :: ys => if strLE x y then x :: y :: ys else y :: insertSorted x ys

/-- Sort strings lexicographically, as the JS default sort does on
the string arrays this app builds. -/
def sortStrings : List String → List String
  | [] => []
  | x :: xs => insertSorted x (sortStrings xs)

/-- The availableGPs computation of fetchData (and the gramPanchayats
memo): distinct GramPanchayat values, empty ones dropped, sorted. -/
def availableGPs (students : List Student) : List String :=
  sortStrings (((students.map (fun s => s.GramPanchayat)).eraseDups).filter
    (fun g => g ≠ ""))

/-- The smart GP selection of fetchData in src/App.tsx: when some GPs
exist and the current selection is empty or invalid, pick the first
sorted GP; when no GPs exist, leave the selection alone. -/
def reconcileGP (students : List Student) (sel : String) : String :=
  let gps := availableGPs students
  if gps.length > 0 then
    if sel = "" ∨ sel ∉ gps then gps.headD sel else sel
  else sel

/-- A GET payload after JSON parsing: an array of rows, a non-array
value with a truthy error field, the JSON null value (on which reading
the error field throws a TypeError), or any other non-array value, on
which reading the error field yields undefined. -/
inductive JPayload where
  | arr (rows : List RawRow)
  | objErr (msg : String)
  | nullBody
  | other
deriving Repr, DecidableEq

/-- Outcome of the GET call: network rejection, a non-2xx response, or
a parsed body. -/
inductive FetchResult where
  | netError (msg : String)
  | httpError (status : Nat)
  | ok (body : JPayload)
deriving Repr, DecidableEq

/-- The catch clause of fetchData: err.message or the generic text. -/
def errMsgOr (msg : String) : String :=
  if msg = "" then "Unable to connect to Google Sheet." else msg

/-- Message of the TypeError raised by reading the error field of a
JSON null body; the exact text is engine-specific, what matters for
the model is that it is a nonempty message landing in the catch. -/
def nullReadErrorMsg : String :=
  "Cannot read properties of null (reading 'error')"

/-- fetchData of src/App.tsx as a state transformer over the outcome of
the GET call: errors and error-tagged bodies throw into the catch
clause, which clears the collection and sets the banner; a JSON null
body also lands in the catch, because reading its error field throws a
TypeError; a nonempty array is normalized, stored, and the GP selection
reconciled; an empty array or any other body clears the collection
without setting an error (the banner was reset to null on entry). -/
def fetchData (st : AppState) (r : FetchResult) : AppState :=
  match r with
  | .netError msg =>
      { students := [], selectedGP := st.selectedGP, error := some (errMsgOr msg) }
  | .httpError status =>
      { students := [], selectedGP := st.selectedGP
      , error := some ("Network response was not ok: " ++ toString status) }
  | .ok body =>
    match body with
    | .objErr msg =>
        { students := [], selectedGP := st.selectedGP, error := some (errMsgOr msg) }
    | .nullBody =>
        { students := [], selectedGP := st.selectedGP
        , error := some (errMsgOr nullReadErrorMsg) }
    | .arr rows =>
      if rows.length > 0 then
        let ns := normalizeData rows
        { students := ns, selectedGP := reconcileGP ns st.selectedGP, error := none }
      else
        { students := [], selectedGP := st.selectedGP, error := none }
    | .other =>
        { students := [], selectedGP := st.selectedGP, error := none }

/-- The filteredStudents memo of src/App.tsx: keep a record when its
GramPanchayat equals the selection and the lowercased search term
occurs in the lowercased name, or in the ID as stored, or in the
mobile as stored. -/
def filteredStudents (students : List Student) (selectedGP searchTerm : String) :
    List Student :=
  students.filter fun s =>
    let matchGP := s.GramPanchayat == selectedGP
    let term := toLowerStr searchTerm
    let matchSearch := jsIncludes (toLowerStr s.StudentName) term
      || jsIncludes s.ID term || jsIncludes s.Mobile term
    matchGP && matchSearch

/-!
Edit reconciler: handleSaveStudent in src/App.tsx and the per-card
handleSave guard in src/components/StudentTable.tsx.
-/

/-- Outcome of the POST call as the try block can observe it: a network
rejection, or a settled response with its HTTP ok flag and whether the
body carries status error (the code reads neither). -/
inductive PostOutcome where
  | netError
  | completed (ok : Bool) (bodyStatusError : Bool)
deriving Repr, DecidableEq

/-- The optimistic local update of handleSaveStudent: patch the two
editable fields of every record whose ID matches. -/
def handleSaveLocal (students : List Student) (id adm rem : String) :
    List Student :=
  students.map fun s =>
    if s.ID = id then { s with AdmissionDetailed := adm, Remark := rem } else s

/-- Message handleSaveStudent puts in the banner when the POST rejects. -/
def saveFailMsg : String := "Failed to save to cloud. Changes are local only."

/-- handleSaveStudent of src/App.tsx: apply the optimistic local patch
first, then POST; a network rejection is caught and only sets the
banner, so the returned flag (does the async function reject?) is false
on every path; a settled response is never inspected, so a non-2xx
status or an error-tagged body changes nothing. -/
def handleSaveStudentRun (st : AppState) (id adm rem : String)
    (remote : PostOutcome) : AppState × Bool :=
  let students' := handleSaveLocal st.students id adm rem
  match remote with
  | .netError => ({ st with students := students', error := some saveFailMsg }, false)
  | .completed _ _ => ({ st with students := students' }, false)

/-- The state handleSaveStudent leaves behind. -/
def handleSaveStudent (st : AppState) (id adm rem : String)
    (remote : PostOutcome) : AppState :=
  (handleSaveStudentRun st id adm rem remote).1

/-- The per-card status values of StudentTable. -/
inductive CardStatus where
  | idle
  | saving
  | saved
  | error
deriving Repr, DecidableEq

/-- The status the card reports after awaiting onUpdate in handleSave of
src/components/StudentTable.tsx: saved when the promise resolves, error
when it rejects. -/
def cardSaveStatus (st : AppState) (id adm rem : String)
    (remote : PostOutcome) : CardStatus :=
  if (handleSaveStudentRun st id adm rem remote).2 then CardStatus.error
  else CardStatus.saved

/-- handleSave of src/components/StudentTable.tsx including its no-op
guard: when both edited values equal the record's stored values it
returns at once; otherwise it runs handleSaveStudent. The flag records
whether a POST was issued. -/
def cardSave (st : AppState) (student : Student) (adm rem : String)
    (remote : PostOutcome) : AppState × Bool :=
  if adm = student.AdmissionDetailed ∧ rem = student.Remark then (st, false)
  else (handleSaveStudent st student.ID adm rem remote, true)

/-- Modelled from the words of claim C5 for the refinement comparison:
a record is visible iff its group key equals the selection and the
query is empty or matches case-insensitively as a substring of the
name, of the id, or of the phone. -/
def specVisible (s : Student) (sel q : String) : Bool :=
  (s.GramPanchayat == sel) &&
  ((q == "") || jsIncludes (toLowerStr s.StudentName) (toLowerStr q)
    || jsIncludes (toLowerStr s.ID) (toLowerStr q)
    || jsIncludes (toLowerStr s.Mobile) (toLowerStr q))

/-- A concrete normalized record used by several witness theorems. -/
def stA : Student :=
  { ID := "5", FamilyId := "F100", GramPanchayat := "G1"
  , StudentName := "Asha", FatherName := "Ram", Aadhaar := "1111"
  , DOB := "2015-01-01", Age := 9, Mobile := "9990001111", Gender := "F"
  , AdmissionDetailed := "Pending", Remark := "" }

/-!
Helper lemmas about the JS primitive models.
-/

lemma subSearch_nil_needle (l : List Char) : subSearch [] l = true := by
  cases l <;> simp [subSearch, leadMatch]

lemma jsIncludes_empty (s : String) : jsIncludes s "" = true :=
  subSearch_nil_needle s.toList

lemma toLowerStr_empty : toLowerStr "" = "" := rfl

lemma toDigitsCore_ne_nil (b : Nat) :
    ∀ (f n : Nat) (ds : List Char), ds ≠ [] → Nat.toDigitsCore b f n ds ≠ [] := by
  intro f
  induction f with
  | zero => intro n ds h; simpa [Nat.toDigitsCore] using h
  | succ f ih =>
    intro n ds h
    simp only [Nat.toDigitsCore]
    split
    · simp
    · exact ih _ _ (by simp)

lemma natRepr_ne_empty (n : Nat) : Nat.repr n ≠ "" := by
  have h : Nat.toDigits 10 n ≠ [] := by
    simp only [Nat.toDigits, Nat.toDigitsCore]
    split
    · simp
    · exact toDigitsCore_ne_nil 10 _ _ _ (by simp)
  intro hc
  exact h (congrArg String.data hc)

lemma intToString_ne_empty (n : Int) : toString n ≠ "" := by
  cases n with
  | ofNat m => exact natRepr_ne_empty m
  | negSucc m =>
    show ("-" ++ toString (m + 1) : String) ≠ ""
    intro hc
    have hl := congrArg String.length hc
    rw [String.length_append] at hl
    have h1 : (1 : Nat) + (toString (m + 1) : String).length = 0 := hl
    omega

lemma jsString_ne_empty_of_truthy (v : JsVal) (h : jsTruthy v = true) :
    jsString v ≠ "" := by
  cases v with
  | vstr s => simp [jsTruthy] at h; simpa [jsString] using h
  | vnum n => exact intToString_ne_empty n
  | vbool b =>
    cases b with
    | true => simp [jsString]
    | false => simp [jsTruthy] at h
  | vnull => simp [jsTruthy] at h

lemma strField_ne_empty (row : RawRow) (key dflt : String) (h : dflt ≠ "") :
    strField row key dflt ≠ "" := by
  unfold strField
  cases hg : getVal row key with
  | none => exact h
  | some v =>
    cases htv : jsTruthy v with
    | false => simp [htv]; exact h
    | true => simp [htv]; exact jsString_ne_empty_of_truthy v htv

lemma strField_vstr (row : RawRow) (key dflt v : String)
    (h : getVal row key = some (JsVal.vstr v)) :
    strField row key dflt = if v = "" then dflt else v := by
  by_cases hv : v = "" <;> simp [strField, h, jsTruthy, jsString, hv]

lemma numField_vnum (row : RawRow) (key : String) (n : Int)
    (h : getVal row key = some (JsVal.vnum n)) : numField row key = n := by
  simp [numField, h, jsToNum]

lemma normalizeOne_studentToRow (s : Student) (hname : s.StudentName ≠ "")
    (hgen : s.Gender ≠ "") : normalizeOne (studentToRow s) = s := by
  have hID : strField (studentToRow s) "ID" "" = s.ID := by
    rw [strField_vstr (studentToRow s) "ID" "" s.ID rfl]
    by_cases h : s.ID = "" <;> simp [h]
  have hFam : strField (studentToRow s) "FamilyId" "" = s.FamilyId := by
    rw [strField_vstr (studentToRow s) "FamilyId" "" s.FamilyId rfl]
    by_cases h : s.FamilyId = "" <;> simp [h]
  have hGP : strField (studentToRow s) "GramPanchayat" "" = s.GramPanchayat := by
    rw [strField_vstr (studentToRow s) "GramPanchayat" "" s.GramPanchayat rfl]
    by_cases h : s.GramPanchayat = "" <;> simp [h]
  have hName : strField (studentToRow s) "StudentName" "Unknown" = s.StudentName := by
    rw [strField_vstr (studentToRow s) "StudentName" "Unknown" s.StudentName rfl,
      if_neg hname]
  have hFather : strField (studentToRow s) "FatherName" "" = s.FatherName := by
    rw [strField_vstr (studentToRow s) "FatherName" "" s.FatherName rfl]
    by_cases h : s.FatherName = "" <;> simp [h]
  have hAad : strField (studentToRow s) "Aadhaar" "" = s.Aadhaar := by
    rw [strField_vstr (studentToRow s) "Aadhaar" "" s.Aadhaar rfl]
    by_cases h : s.Aadhaar = "" <;> simp [h]
  have hDOB : strField (studentToRow s) "DOB" "" = s.DOB := by
    rw [strField_vstr (studentToRow s) "DOB" "" s.DOB rfl]
    by_cases h : s.DOB = "" <;> simp [h]
  have hAge : numField (studentToRow s) "Age" = s.Age :=
    numField_vnum (studentToRow s) "Age" s.Age rfl
  have hMob : strField (studentToRow s) "Mobile" "" = s.Mobile := by
    rw [strField_vstr (studentToRow s) "Mobile" "" s.Mobile rfl]
    by_cases h : s.Mobile = "" <;> simp [h]
  have hGen : strField (studentToRow s) "Gender" "U" = s.Gender := by
    rw [strField_vstr (studentToRow s) "Gender" "U" s.Gender rfl, if_neg hgen]
  have hAdm : strField (studentToRow s) "AdmissionDetailed" "" = s.AdmissionDetailed := by
    rw [strField_vstr (studentToRow s) "AdmissionDetailed" "" s.AdmissionDetailed rfl]
    by_cases h : s.AdmissionDetailed = "" <;> simp [h]
  have hRem : strField (studentToRow s) "Remark" "" = s.Remark := by
    rw [strField_vstr (studentToRow s) "Remark" "" s.Remark rfl]
    by_cases h : s.Remark = "" <;> simp [h]
  simp only [normalizeOne]
  rw [hID, hFam, hGP, hName, hFather, hAad, hDOB, hAge, hMob, hGen, hAdm, hRem]

lemma normalizeOne_roundtrip (item : RawRow) :
    normalizeOne (studentToRow (normalizeOne item)) = normalizeOne item :=
  normalizeOne_studentToRow (normalizeOne item)
    (strField_ne_empty item "StudentName" "Unknown" (by decide))
    (strField_ne_empty item "Gender" "U" (by decide))

/-!
Claim theorems.
-/

/-- C1, counterexample: a settled POST response with a non-2xx status
and a status error body is reported as saved by the card, not as
failed, because handleSaveStudent catches every error and never
inspects the response, so the awaited promise always resolves. -/
theorem save_error_response_reported_saved :
    cardSaveStatus ⟨[stA], "G1", none⟩ "5" "Approved" "Good"
      (PostOutcome.completed false true) = CardStatus.saved ∧
    CardStatus.saved ≠ CardStatus.error := by
  exact ⟨rfl, by decide⟩

/-- C1, amended: the card-level save outcome is saved for every remote
outcome, transport failures included; a failure is surfaced only
through the store-wide error banner, which is set exactly when the
POST rejects at the network level (non-2xx responses and error-tagged
bodies are never inspected and set nothing). -/
theorem save_outcome_always_saved (students : List Student) (gp : String)
    (id adm rem : String) (remote : PostOutcome) :
    cardSaveStatus ⟨students, gp, none⟩ id adm rem remote = CardStatus.saved ∧
    ((handleSaveStudent ⟨students, gp, none⟩ id adm rem remote).error ≠ none ↔
      remote = PostOutcome.netError) := by
  constructor
  · cases remote <;> rfl
  · cases remote with
    | netError => simp [handleSaveStudent, handleSaveStudentRun]
    | completed ok bodyErr => simp [handleSaveStudent, handleSaveStudentRun]

/-- C1, witness for the amended theorem at a concrete input. -/
theorem save_outcome_always_saved_check :
    cardSaveStatus ⟨[stA], "G1", none⟩ "5" "x" "y"
      (PostOutcome.completed true false) = CardStatus.saved :=
  (save_outcome_always_saved [stA] "G1" "5" "x" "y"
    (PostOutcome.completed true false)).1

/-- C2, counterexample: on the spec scenario record, a push that fails
with a settled non-2xx, status error response (a failure by the
claim's own failure notion) leaves the local record updated, but no
failure is reported anywhere: the banner stays clear and the card
reports saved. -/
theorem save_settled_failure_unreported :
    (handleSaveStudent ⟨[stA], "G1", none⟩ "5" "Approved" "Good"
        (PostOutcome.completed false true)).students[0]? =
      some { stA with AdmissionDetailed := "Approved", Remark := "Good" } ∧
    (handleSaveStudent ⟨[stA], "G1", none⟩ "5" "Approved" "Good"
        (PostOutcome.completed false true)).error = none ∧
    cardSaveStatus ⟨[stA], "G1", none⟩ "5" "Approved" "Good"
      (PostOutcome.completed false true) = CardStatus.saved :=
  ⟨rfl, rfl, rfl⟩

/-- C2, amended: when a stored record's ID matches, the optimistic
local patch updates its two editable fields at once, and the record
holds the new values after the push whatever its remote outcome (no
rollback on any path); however a failure is reported only when the
push rejects at the network level, and then only via the store-wide
banner — a settled response, non-2xx or error-tagged included, leaves
the banner untouched and reports nothing. -/
theorem save_optimistic_no_rollback (students : List Student) (gp : String)
    (err0 : Option String) (adm rem : String) (i : Nat) (s : Student)
    (hs : students[i]? = some s) (remote : PostOutcome) :
    (handleSaveLocal students s.ID adm rem)[i]? =
      some { s with AdmissionDetailed := adm, Remark := rem } ∧
    (handleSaveStudent ⟨students, gp, err0⟩ s.ID adm rem remote).students[i]? =
      some { s with AdmissionDetailed := adm, Remark := rem } ∧
    (remote = PostOutcome.netError →
      (handleSaveStudent ⟨students, gp, err0⟩ s.ID adm rem remote).error =
        some saveFailMsg) ∧
    (∀ ok bodyErr, remote = PostOutcome.completed ok bodyErr →
      (handleSaveStudent ⟨students, gp, err0⟩ s.ID adm rem remote).error = err0) := by
  have h1 : (handleSaveLocal students s.ID adm rem)[i]? =
      some { s with AdmissionDetailed := adm, Remark := rem } := by
    simp [handleSaveLocal, List.getElem?_map, hs]
  refine ⟨h1, ?_, ?_, ?_⟩
  · cases remote <;> exact h1
  · rintro rfl; rfl
  · rintro ok bodyErr rfl; rfl

/-- C2, witness at a concrete record, exercising both the rejected push
and the settled error response. -/
theorem save_optimistic_no_rollback_check :
    (handleSaveStudent ⟨[stA], "G1", none⟩ stA.ID "Approved" "Good"
        PostOutcome.netError).students[0]? =
      some { stA with AdmissionDetailed := "Approved", Remark := "Good" } ∧
    (handleSaveStudent ⟨[stA], "G1", none⟩ stA.ID "Approved" "Good"
        PostOutcome.netError).error = some saveFailMsg ∧
    (handleSaveStudent ⟨[stA], "G1", none⟩ stA.ID "Approved" "Good"
        (PostOutcome.completed false true)).error = none :=
  ⟨(save_optimistic_no_rollback [stA] "G1" none "Approved" "Good" 0 stA rfl
      PostOutcome.netError).2.1,
   (save_optimistic_no_rollback [stA] "G1" none "Approved" "Good" 0 stA rfl
      PostOutcome.netError).2.2.1 rfl,
   (save_optimistic_no_rollback [stA] "G1" none "Approved" "Good" 0 stA rfl
      (PostOutcome.completed false true)).2.2.2 false true rfl⟩

/-- C3, counterexample: a non-null GET payload that is neither an array
nor carries a truthy error field, such as an empty object, discards
the previous records but surfaces no error at all, contrary to the
claim that a connectivity error is shown. -/
theorem fetch_other_payload_silent :
    (fetchData ⟨[stA], "G1", none⟩ (FetchResult.ok JPayload.other)).students = [] ∧
    (fetchData ⟨[stA], "G1", none⟩ (FetchResult.ok JPayload.other)).error = none :=
  ⟨rfl, rfl⟩

/-- C3, amended: every non-array, non-error-tagged GET payload replaces
the collection with the empty set; among these only the JSON null body
surfaces an error (reading its error field throws into the catch),
while every other such payload leaves the banner cleared; transport
failures, non-2xx responses and error-tagged bodies also clear the
collection and do set an error message. -/
theorem fetch_error_handling (st : AppState) (msg : String) (status : Nat) :
    ((fetchData st (FetchResult.ok JPayload.other)).students = [] ∧
      (fetchData st (FetchResult.ok JPayload.other)).error = none) ∧
    ((fetchData st (FetchResult.ok JPayload.nullBody)).students = [] ∧
      (fetchData st (FetchResult.ok JPayload.nullBody)).error ≠ none) ∧
    ((fetchData st (FetchResult.netError msg)).students = [] ∧
      (fetchData st (FetchResult.netError msg)).error ≠ none) ∧
    ((fetchData st (FetchResult.httpError status)).students = [] ∧
      (fetchData st (FetchResult.httpError status)).error ≠ none) ∧
    ((fetchData st (FetchResult.ok (JPayload.objErr msg))).students = [] ∧
      (fetchData st (FetchResult.ok (JPayload.objErr msg))).error ≠ none) := by
  refine ⟨⟨rfl, rfl⟩, ⟨rfl, ?_⟩, ⟨rfl, ?_⟩, ⟨rfl, ?_⟩, ⟨rfl, ?_⟩⟩ <;> simp [fetchData]

/-- C3, witness for the amended theorem at a concrete input, exercising
the transport failure and the null body. -/
theorem fetch_error_handling_check :
    ((fetchData ⟨[stA], "G1", none⟩ (FetchResult.netError "boom")).students = [] ∧
      (fetchData ⟨[stA], "G1", none⟩ (FetchResult.netError "boom")).error ≠ none) ∧
    ((fetchData ⟨[stA], "G1", none⟩ (FetchResult.ok JPayload.nullBody)).students = [] ∧
      (fetchData ⟨[stA], "G1", none⟩ (FetchResult.ok JPayload.nullBody)).error ≠ none) :=
  ⟨(fetch_error_handling ⟨[stA], "G1", none⟩ "boom" 500).2.2.1,
   (fetch_error_handling ⟨[stA], "G1", none⟩ "boom" 500).2.1⟩

/-- C4, counterexample: a nonempty fetched array whose records all have
an empty group key yields an empty sorted group set, and the previous
selection X is kept rather than reset to the empty string as the claim
requires. -/
theorem fetch_empty_groups_keeps_selection :
    availableGPs (normalizeData [[("ID", JsVal.vstr "1")]]) = [] ∧
    (fetchData ⟨[], "X", none⟩
        (FetchResult.ok (JPayload.arr [[("ID", JsVal.vstr "1")]]))).selectedGP = "X" ∧
    "X" ≠ "" := by
  exact ⟨rfl, rfl, by decide⟩

/-- C4, amended: after a fetch that stores a nonempty normalized array,
with G the sorted set of distinct non-empty group keys: when G is
nonempty and the current selection is empty or not in G, the selection
becomes the first element of G; when the selection is a nonempty member
of G it is kept; and when G is empty the previous selection is kept
unchanged (it is not reset to the empty string). -/
theorem fetch_group_reconciliation (st : AppState) (rows : List RawRow)
    (h : rows ≠ []) :
    (availableGPs (normalizeData rows) = [] →
      (fetchData st (FetchResult.ok (JPayload.arr rows))).selectedGP =
        st.selectedGP) ∧
    (∀ g gs, availableGPs (normalizeData rows) = g :: gs →
      (st.selectedGP = "" ∨ st.selectedGP ∉ availableGPs (normalizeData rows)) →
      (fetchData st (FetchResult.ok (JPayload.arr rows))).selectedGP = g) ∧
    (∀ g gs, availableGPs (normalizeData rows) = g :: gs →
      st.selectedGP ≠ "" → st.selectedGP ∈ availableGPs (normalizeData rows) →
      (fetchData st (FetchResult.ok (JPayload.arr rows))).selectedGP =
        st.selectedGP) := by
  have hl : rows.length > 0 := List.length_pos.mpr h
  refine ⟨?_, ?_, ?_⟩
  · intro hG
    simp [fetchData, hl, reconcileGP, hG]
  · intro g gs hG hsel
    rw [hG] at hsel
    rcases hsel with hsel | hsel <;> simp [fetchData, hl, reconcileGP, hG, hsel]
  · intro g gs hG hne hmem
    rw [hG] at hmem
    simp [fetchData, hl, reconcileGP, hG, hne, hmem]

/-- C4, witness: the spec example, groups B, A, A with no prior
selection, ends with group A selected. -/
theorem fetch_group_reconciliation_check :
    (fetchData ⟨[], "", none⟩ (FetchResult.ok (JPayload.arr
      [ [("GramPanchayat", JsVal.vstr "B")]
      , [("GramPanchayat", JsVal.vstr "A")]
      , [("GramPanchayat", JsVal.vstr "A")] ]))).selectedGP = "A" :=
  (fetch_group_reconciliation ⟨[], "", none⟩
      [ [("GramPanchayat", JsVal.vstr "B")]
      , [("GramPanchayat", JsVal.vstr "A")]
      , [("GramPanchayat", JsVal.vstr "A")] ] (by simp)).2.1
    "A" ["B"] rfl (Or.inl rfl)

/-- C5, counterexample: on a reachable normalized record whose ID is
AB, the query aB matches the ID case-insensitively as the claim reads
it, yet the code lowercases only the query and the name, so the
record is filtered out. -/
theorem search_id_not_case_insensitive :
    specVisible (normalizeOne [("ID", JsVal.vstr "AB"),
      ("GramPanchayat", JsVal.vstr "G")]) "G" "aB" = true ∧
    filteredStudents [normalizeOne [("ID", JsVal.vstr "AB"),
      ("GramPanchayat", JsVal.vstr "G")]] "G" "aB" = [] := by
  exact ⟨rfl, rfl⟩

/-- C5, amended: a record is visible iff its group key equals the
selection and the lowercased query is empty or occurs in the
lowercased name, in the ID as stored, or in the mobile as stored
(case-insensitive for the name only); the visible view is a sublist of
the collection, so the original order is preserved with no sort. -/
theorem visible_records_spec (students : List Student) (sel q : String)
    (s : Student) :
    (s ∈ filteredStudents students sel q ↔
      s ∈ students ∧ s.GramPanchayat = sel ∧
        (q = "" ∨ jsIncludes (toLowerStr s.StudentName) (toLowerStr q) = true ∨
          jsIncludes s.ID (toLowerStr q) = true ∨
          jsIncludes s.Mobile (toLowerStr q) = true)) ∧
    List.Sublist (filteredStudents students sel q) students := by
  constructor
  · simp only [filteredStudents, List.mem_filter, Bool.and_eq_true,
      Bool.or_eq_true, beq_iff_eq]
    constructor
    · rintro ⟨hm, hgp, hsearch⟩
      refine ⟨hm, hgp, Or.inr ?_⟩
      tauto
    · rintro ⟨hm, hgp, hq⟩
      refine ⟨hm, hgp, ?_⟩
      rcases hq with hq | hq | hq | hq
      · subst hq
        rw [toLowerStr_empty]
        simp [jsIncludes_empty]
      · tauto
      · tauto
      · tauto
  · exact List.filter_sublist students

/-- C5, witness: the spec example, query 42 finds the record whose ID
is 4201. -/
theorem visible_records_spec_check :
    normalizeOne [("ID", JsVal.vstr "4201"), ("GramPanchayat", JsVal.vstr "G")] ∈
      filteredStudents
        [normalizeOne [("ID", JsVal.vstr "4201"), ("GramPanchayat", JsVal.vstr "G")]]
        "G" "42" :=
  (visible_records_spec
      [normalizeOne [("ID", JsVal.vstr "4201"), ("GramPanchayat", JsVal.vstr "G")]]
      "G" "42"
      (normalizeOne [("ID", JsVal.vstr "4201"), ("GramPanchayat", JsVal.vstr "G")])).1.mpr
    ⟨List.mem_singleton.mpr rfl, rfl, Or.inr (Or.inr (Or.inl rfl))⟩

/-- C6: when both edited values equal the record's stored values, the
per-card save is a true no-op: the state is returned unchanged and no
POST is issued. -/
theorem save_noop_guard (st : AppState) (s : Student) (adm rem : String)
    (remote : PostOutcome) (h1 : adm = s.AdmissionDetailed)
    (h2 : rem = s.Remark) :
    cardSave st s adm rem remote = (st, false) := by
  simp [cardSave, h1, h2]

/-- C6, witness: the spec scenario, saving Pending and the empty remark
on the record that already holds them changes nothing and posts
nothing. -/
theorem save_noop_guard_check :
    cardSave ⟨[stA], "G1", none⟩ stA "Pending" "" PostOutcome.netError =
      (⟨[stA], "G1", none⟩, false) :=
  save_noop_guard ⟨[stA], "G1", none⟩ stA "Pending" "" PostOutcome.netError rfl rfl

/-- C7: normalize is total by construction (it is a plain total Lean
function into Student, with no error path) and yields exactly one
record per input row, so it is count-preserving on every batch. -/
theorem normalize_count_preserving (rows : List RawRow) :
    (normalizeData rows).length = rows.length := by
  simp [normalizeData]

/-- C8, counterexample: for a row with no key at all, the name field
does not default to the empty string as the claim says for string
fields; the code defaults it to the word Unknown. -/
theorem normalize_name_default_unknown :
    getVal [] "StudentName" = none ∧
    (normalizeOne []).StudentName = "Unknown" ∧
    "Unknown" ≠ "" := by
  exact ⟨rfl, rfl, by decide⟩

/-- C8, amended: a field with no case-insensitive key match gets its
field-specific default: 0 for age, the word Unknown for the name, the
sentinel U for gender, and the empty string for every other string
field; and a missing or non-coercible age value normalizes to 0. -/
theorem normalize_defaults :
    (∀ row, getVal row "Age" = none → (normalizeOne row).Age = 0) ∧
    (∀ row v, getVal row "Age" = some v → jsToNum v = none →
      (normalizeOne row).Age = 0) ∧
    (∀ row, getVal row "StudentName" = none →
      (normalizeOne row).StudentName = "Unknown") ∧
    (∀ row, getVal row "Gender" = none → (normalizeOne row).Gender = "U") ∧
    (∀ row, getVal row "ID" = none → (normalizeOne row).ID = "") ∧
    (∀ row, getVal row "FamilyId" = none → (normalizeOne row).FamilyId = "") ∧
    (∀ row, getVal row "GramPanchayat" = none →
      (normalizeOne row).GramPanchayat = "") ∧
    (∀ row, getVal row "FatherName" = none → (normalizeOne row).FatherName = "") ∧
    (∀ row, getVal row "Aadhaar" = none → (normalizeOne row).Aadhaar = "") ∧
    (∀ row, getVal row "DOB" = none → (normalizeOne row).DOB = "") ∧
    (∀ row, getVal row "Mobile" = none → (normalizeOne row).Mobile = "") ∧
    (∀ row, getVal row "AdmissionDetailed" = none →
      (normalizeOne row).AdmissionDetailed = "") ∧
    (∀ row, getVal row "Remark" = none → (normalizeOne row).Remark = "") := by
  refine ⟨fun row h => ?_, fun row v h1 h2 => ?_, fun row h => ?_, fun row h => ?_,
    fun row h => ?_, fun row h => ?_, fun row h => ?_, fun row h => ?_,
    fun row h => ?_, fun row h => ?_, fun row h => ?_, fun row h => ?_,
    fun row h => ?_⟩
  · simp [normalizeOne, numField, h]
  · simp [normalizeOne, numField, h1, h2]
  all_goals simp [normalizeOne, strField, h]

/-- C8, witness for the amended theorem: the empty row gets every
default, and a textual age degrades to 0. -/
theorem normalize_defaults_check :
    (normalizeOne []).Age = 0 ∧
    (normalizeOne [("Age", JsVal.vstr "abc")]).Age = 0 ∧
    (normalizeOne []).StudentName = "Unknown" ∧
    (normalizeOne []).Gender = "U" ∧
    (normalizeOne []).ID = "" :=
  ⟨normalize_defaults.1 [] rfl,
   normalize_defaults.2.1 [("Age", JsVal.vstr "abc")] (JsVal.vstr "abc") rfl rfl,
   normalize_defaults.2.2.1 [] rfl,
   normalize_defaults.2.2.2.1 [] rfl,
   normalize_defaults.2.2.2.2.1 [] rfl⟩

/-- C9: the optimistic save patch preserves the length and order of the
collection, leaves every record with a different ID entirely unchanged,
and changes only the AdmissionDetailed and Remark fields of every
record whose ID matches, keeping all its other fields. -/
theorem save_frame_condition (students : List Student) (id adm rem : String) :
    (handleSaveLocal students id adm rem).length = students.length ∧
    List.Forall₂ (fun s r =>
        (s.ID ≠ id → r = s) ∧
        (s.ID = id → r.AdmissionDetailed = adm ∧ r.Remark = rem ∧
          r.ID = s.ID ∧ r.FamilyId = s.FamilyId ∧
          r.GramPanchayat = s.GramPanchayat ∧ r.StudentName = s.StudentName ∧
          r.FatherName = s.FatherName ∧ r.Aadhaar = s.Aadhaar ∧
          r.DOB = s.DOB ∧ r.Age = s.Age ∧ r.Mobile = s.Mobile ∧
          r.Gender = s.Gender))
      students (handleSaveLocal students id adm rem) := by
  constructor
  · simp [handleSaveLocal]
  · induction students with
    | nil => simp [handleSaveLocal]
    | cons s ss ih =>
      simp only [handleSaveLocal, List.map_cons] at ih ⊢
      refine List.Forall₂.cons ?_ ih
      by_cases h : s.ID = id <;> simp [h]

/-- C9, witness: the frame condition instantiated on a concrete
collection. -/
theorem save_frame_condition_check :
    (handleSaveLocal [stA] "5" "Approved" "Good").length = [stA].length :=
  (save_frame_condition [stA] "5" "Approved" "Good").1

/-- C10: normalization is idempotent: feeding the normalized records
back through normalize (with the keys and value types normalizeData
emits) reproduces the same sequence field for field. -/
theorem normalize_idempotent (rows : List RawRow) :
    normalizeData ((normalizeData rows).map studentToRow) = normalizeData rows := by
  induction rows with
  | nil => rfl
  | cons r rs ih =>
    simp only [normalizeData, List.map_cons] at ih ⊢
    rw [normalizeOne_roundtrip r, ih]

end ZeroPoverty
